import Mathlib

set_option linter.unusedVariables false

/-
Verification development for the reddit_scraper repository.

Shallow embedding of the core pipeline:
  modules/utils.py        exponential_backoff
  modules/scraper.py      RedditScraper.fetch_posts, fetch_comments,
                          extract_post_data, save_posts_with_duplicates
  modules/database.py     Post and Comment table schema (unique constraints)

The upstream reddit listing API is modelled as an oracle
`upstream : Option String -> Except String (List RawRedditPost)` mapping a
pagination cursor (the after parameter; none for the first page) to either a
page of raw items or a raised transport exception. The comment tree of a post
(post.comments.list() after replace_more) is modelled as an oracle
`commentTree : String -> List RawRedditComment` keyed by post id.
-/

namespace RedditScraper

/-- Raw praw submission object as consumed by extract_post_data. The four
fields the spec calls required (title, permalink, num_comments, score) are
Option-valued: none models the attribute being absent on the raw item, which
makes the attribute access raise inside extract_post_data. The author field is
none when the account is deleted (post.author is None in Python). -/
structure RawRedditPost where
  id : String
  title : Option String
  selftext : String
  url : String
  permalink : Option String
  num_comments : Option Int
  score : Option Int
  author : Option String
  created_utc : Nat
  fullname : String
deriving Repr, DecidableEq

/-- Raw node of an expanded comment tree. isCommentNode models the
isinstance(comment, praw.models.Comment) test (false for MoreComments
placeholder nodes). author is none for a deleted account. -/
structure RawRedditComment where
  isCommentNode : Bool
  id : String
  author : Option String
  body : String
  score : Int
  created_utc : Nat
deriving Repr, DecidableEq

/-- Abstraction of datetime.utcfromtimestamp(t).isoformat(): an injective
rendering of the epoch-seconds value as a string. No claim depends on the
exact textual format, only on the value being derived from the source epoch. -/
def isoOfEpoch (t : Nat) : String :=
  "1970-01-01T00:00:00+" ++ toString t

/-- Python idiom x.author.name if x.author else "N/A", shared by
extract_post_data (line 126) and fetch_comments (line 106). -/
def authorName : Option String → String
  | some name => name
  | none => "N/A"

/-- Normalized comment dict built by fetch_comments for one raw node
(scraper.py lines 103-110). -/
structure CommentData where
  comment_id : String
  post_id : String
  username : String
  body : String
  score : Int
  created_utc : String
deriving Repr, DecidableEq

/-- Normalized post dict built by extract_post_data (scraper.py lines
118-129); the comments key is attached afterwards by fetch_posts (line 71). -/
structure PostData where
  id : String
  title : String
  description : String
  media_url : String
  post_url : String
  num_comments : Int
  score : Int
  username : String
  created_utc : String
  subreddit : String
  comments : List CommentData
deriving Repr, DecidableEq

/-- Mapping of one raw comment node into its normalized dict
(scraper.py lines 103-110). -/
def commentRecord (post : RawRedditPost) (c : RawRedditComment) : CommentData :=
  { comment_id := c.id
    post_id := post.id
    username := authorName c.author
    body := c.body
    score := c.score
    created_utc := isoOfEpoch c.created_utc }

/-- RedditScraper.fetch_comments (scraper.py lines 95-113): take the first
max_comments nodes of the expanded tree, keep only real Comment nodes, and
map each into its normalized dict. -/
def fetch_comments (post : RawRedditPost) (commentTree : List RawRedditComment)
    (max_comments : Nat) : List CommentData :=
  ((commentTree.take max_comments).filter (fun c => c.isCommentNode)).map
    (commentRecord post)

/-- RedditScraper.extract_post_data (scraper.py lines 115-133): builds the
normalized post dict; if a required field (title, permalink, num_comments,
score) is absent the attribute access raises, and the method re-raises after
logging, modelled as Except.error. -/
def extract_post_data (post : RawRedditPost) (subreddit_name : String) :
    Except String PostData :=
  match post.title, post.permalink, post.num_comments, post.score with
  | some title, some permalink, some ncomments, some score =>
    .ok { id := post.id
          title := title
          description := post.selftext
          media_url := post.url
          post_url := "https://www.reddit.com" ++ permalink
          num_comments := ncomments
          score := score
          username := authorName post.author
          created_utc := isoOfEpoch post.created_utc
          subreddit := subreddit_name
          comments := [] }
  | _, _, _, _ => .error "AttributeError: missing required field"

/-- modules/utils.py exponential_backoff: the number of seconds slept for a
given attempt. The function is defined in the repository but is never called
from any other module. -/
def exponential_backoff (attempt : Nat) (base_delay : Nat) : Nat :=
  base_delay * 2 ^ attempt

/-- Outcome of the listing dispatch at the top of the fetch_posts try block
(scraper.py lines 44-57): either a ValueError raised before any listing call
(inputError), a listing call that raised a transport or API exception
(apiError), or a successfully fetched page of raw items. -/
inductive ListingResult where
  | inputError (msg : String)
  | apiError (msg : String)
  | page (items : List RawRedditPost)
deriving Repr

/-- Python truthiness test "if not search_query" (scraper.py line 53): true
for None and for the empty string. -/
def falsyQuery : Option String → Bool
  | none => true
  | some q => q = ""

/-- The if/elif listing dispatch of fetch_posts (scraper.py lines 44-57):
hot, new, top and rising call the corresponding listing endpoint with the
current cursor; relevance first validates search_query and raises ValueError
when it is falsy; any other post_type raises ValueError. The ValueErrors are
raised before any listing call is issued. -/
def fetchListing (upstream : Option String → Except String (List RawRedditPost))
    (post_type : String) (search_query : Option String) (after : Option String) :
    ListingResult :=
  if post_type = "hot" ∨ post_type = "new" ∨ post_type = "top" ∨ post_type = "rising" then
    match upstream after with
    | .ok items => .page items
    | .error e => .apiError e
  else if post_type = "relevance" then
    if falsyQuery search_query then
      .inputError "Search query is required for relevance-based posts."
    else
      match upstream after with
      | .ok items => .page items
      | .error e => .apiError e
  else
    .inputError "Invalid post_type"

/-- Batch construction of the inner for loop of fetch_posts (scraper.py lines
65-73): each raw item is extracted (an extraction exception aborts the whole
try body, discarding the partial batch), the seen_urls set is consulted, and
for a fresh URL the comments are fetched and attached before the item joins
the batch and its URL joins seen_urls. -/
def buildBatch (subreddit_name : String)
    (commentTree : String → List RawRedditComment) :
    List RawRedditPost → List String → Except String (List PostData × List String)
  | [], seen_urls => .ok ([], seen_urls)
  | post :: rest, seen_urls =>
    match extract_post_data post subreddit_name with
    | .error e => .error e
    | .ok pd =>
      if pd.post_url ∈ seen_urls then
        buildBatch subreddit_name commentTree rest seen_urls
      else
        match buildBatch subreddit_name commentTree rest (pd.post_url :: seen_urls) with
        | .error e => .error e
        | .ok (batch, seen') =>
          .ok ({ pd with comments := fetch_comments post (commentTree post.id) 100 } :: batch,
               seen')

/-- Loop state of fetch_posts: the accumulated posts list, the seen_urls set
(a walk-scoped Python set, created once before the while loop at line 32),
the after cursor, and the number of listing fetch calls issued so far. -/
structure WalkState where
  posts : List PostData
  seen_urls : List String
  after : Option String
  fetchCalls : Nat
deriving Repr, DecidableEq

/-- Fullname of the last item of a nonempty page: posts_listing[-1].fullname
(scraper.py line 78). -/
def lastFullname (first : RawRedditPost) (rest : List RawRedditPost) : String :=
  (rest.getLastD first).fullname

/-- The while loop of fetch_posts (scraper.py lines 39-90), with the
remaining iteration budget as fuel. One iteration: run the listing dispatch
inside the try block; a ValueError raised by the dispatch or a listing
exception is caught by the except, logged, and breaks the loop (the
ValueError case has issued no listing call, the others have issued one); an
empty page logs and breaks; otherwise the batch is built (an extraction
exception inside the for loop likewise breaks, discarding that page), the
accumulated list and cursor are advanced and the loop repeats. No retry of a
failed fetch ever occurs and exponential_backoff is never invoked. -/
def fetch_posts_loop (upstream : Option String → Except String (List RawRedditPost))
    (commentTree : String → List RawRedditComment)
    (subreddit_name post_type : String) (search_query : Option String) :
    Nat → WalkState → WalkState
  | 0, st => st
  | fuel + 1, st =>
    match fetchListing upstream post_type search_query st.after with
    | .inputError _ => st
    | .apiError _ => { st with fetchCalls := st.fetchCalls + 1 }
    | .page [] => { st with fetchCalls := st.fetchCalls + 1 }
    | .page (p :: ps) =>
      match buildBatch subreddit_name commentTree (p :: ps) st.seen_urls with
      | .error _ => { st with fetchCalls := st.fetchCalls + 1 }
      | .ok (batch, seen') =>
        fetch_posts_loop upstream commentTree subreddit_name post_type search_query fuel
          { posts := st.posts ++ batch
            seen_urls := seen'
            after := some (lastFullname p ps)
            fetchCalls := st.fetchCalls + 1 }

/-- Page budget of the while condition (scraper.py line 39):
pagination_limit if pagination_limit else 1, where both None and 0 are falsy. -/
def pageBound : Option Nat → Nat
  | none => 1
  | some 0 => 1
  | some (n + 1) => n + 1

/-- RedditScraper.fetch_posts (scraper.py lines 29-93). The parameters
time_filter, sort_by_comments and post_limit are accepted by the Python
signature but never influence the walk (time_filter only selects the upstream
listing variant, which the oracle abstracts); max_api_retries models the
instance attribute self.max_api_retries, which fetch_posts never reads. -/
def fetch_posts (upstream : Option String → Except String (List RawRedditPost))
    (commentTree : String → List RawRedditComment)
    (subreddit_name post_type time_filter : String) (search_query : Option String)
    (sort_by_comments : Bool) (post_limit : Nat) (pagination_limit : Option Nat)
    (max_api_retries : Nat) : WalkState :=
  fetch_posts_loop upstream commentTree subreddit_name post_type search_query
    (pageBound pagination_limit)
    { posts := [], seen_urls := [], after := none, fetchCalls := 0 }

/-- Row of the posts table (modules/database.py lines 10-32): id is the
primary key, post_url carries a unique constraint, and the
is_multiple_subreddits column defaults to false (save_posts_with_duplicates
never sets it). -/
structure Post where
  id : String
  title : String
  description : String
  media_url : String
  post_url : String
  num_comments : Int
  score : Int
  username : String
  created_utc : String
  subreddit : String
  is_multiple_subreddits : Bool
deriving Repr, DecidableEq

/-- Row of the comments table (modules/database.py lines 36-48): comment_id
carries a unique constraint, post_id is a foreign key to posts.id. The
autoincrement surrogate primary key is represented by list position. -/
structure Comment where
  comment_id : String
  post_id : String
  username : String
  body : String
  score : Int
  created_utc : String
deriving Repr, DecidableEq

/-- Relational store holding the two tables. -/
structure Database where
  posts : List Post
  comments : List Comment
deriving Repr, DecidableEq

/-- Comment loop of save_posts_with_duplicates (scraper.py lines 184-200):
for each comment dict, query the store by comment_id (with session autoflush
the query also sees the rows already staged for this post inside the open
transaction) and skip duplicates; otherwise stage a Comment row whose post_id
is the id of the enclosing post (line 193). Returns the staged rows. -/
def stageComments (post_id_val : String) (committed : List Comment) :
    List CommentData → List Comment → List Comment
  | [], staged => staged
  | c :: cs, staged =>
    if c.comment_id ∈ (committed ++ staged).map (fun r => r.comment_id) then
      stageComments post_id_val committed cs staged
    else
      stageComments post_id_val committed cs
        (staged ++ [{ comment_id := c.comment_id
                      post_id := post_id_val
                      username := c.username
                      body := c.body
                      score := c.score
                      created_utc := c.created_utc }])

/-- One iteration of the for loop of save_posts_with_duplicates (scraper.py
lines 160-203), i.e. one post transaction. A post whose post_url is already
stored is skipped (continue, line 165), leaving the store unchanged. Otherwise
the Post row and its non-duplicate Comment rows are staged and committed
(line 203); if the id of the staged post already exists in the posts table
the primary-key constraint makes the flush or commit raise IntegrityError,
modelled as none: the open transaction is rolled back and nothing of this
post is stored. -/
def savePostUnit (db : Database) (pd : PostData) : Option Database :=
  if pd.post_url ∈ db.posts.map (fun r => r.post_url) then
    some db
  else if pd.id ∈ db.posts.map (fun r => r.id) then
    none
  else
    some { posts := db.posts ++
             [{ id := pd.id
                title := pd.title
                description := pd.description
                media_url := pd.media_url
                post_url := pd.post_url
                num_comments := pd.num_comments
                score := pd.score
                username := pd.username
                created_utc := pd.created_utc
                subreddit := pd.subreddit
                is_multiple_subreddits := false }]
           comments := db.comments ++ stageComments pd.id db.comments pd.comments [] }

/-- RedditScraper.save_posts_with_duplicates (scraper.py lines 153-210). The
try block wraps the whole for loop: each successful post transaction is
committed immediately, and the first exception raised inside any post
transaction is caught by the except outside the loop, which rolls back the
open transaction and leaves the function — the remaining posts of the batch
are not processed. -/
def save_posts_with_duplicates (db : Database) : List PostData → Database
  | [] => db
  | pd :: rest =>
    match savePostUnit db pd with
    | some db' => save_posts_with_duplicates db' rest
    | none => db

/-- Decidable version of knowing that every post transaction of a batch
commits or skips without raising, so save_posts_with_duplicates reaches the
end of the batch. -/
def allUnitsSucceed : Database → List PostData → Bool
  | _, [] => true
  | db, pd :: rest =>
    match savePostUnit db pd with
    | some db' => allUnitsSucceed db' rest
    | none => false

/-- Uniqueness invariant of the schema (modules/database.py): no two post
rows share an id, no two post rows share a post_url, no two comment rows
share a comment_id. -/
def dbUnique (db : Database) : Prop :=
  (db.posts.map (fun r => r.id)).Nodup ∧
  (db.posts.map (fun r => r.post_url)).Nodup ∧
  (db.comments.map (fun r => r.comment_id)).Nodup

/-- One full pipeline pass for one feed, as driven by RedditScraper.run
(scraper.py lines 135-151): fetch the pages and save the resulting batch. -/
def runPipeline (upstream : Option String → Except String (List RawRedditPost))
    (commentTree : String → List RawRedditComment)
    (subreddit_name post_type time_filter : String) (search_query : Option String)
    (sort_by_comments : Bool) (post_limit : Nat) (pagination_limit : Option Nat)
    (max_api_retries : Nat) (db : Database) : Database :=
  save_posts_with_duplicates db
    (fetch_posts upstream commentTree subreddit_name post_type time_filter
      search_query sort_by_comments post_limit pagination_limit max_api_retries).posts

/-! Concrete fixtures used by the witnesses and counterexamples. -/

/-- Well-formed raw item with every required field present. -/
def sampleRaw (i link : String) : RawRedditPost :=
  { id := i
    title := "title " ++ i
    selftext := ""
    url := "https://img.example/" ++ i
    permalink := some link
    num_comments := some 0
    score := some 1
    author := some "alice"
    created_utc := 0
    fullname := "t3_" ++ i }

/-- Empty comment tree for every post. -/
def noComments : String → List RawRedditComment :=
  fun _ => []

/-- Upstream returning items on pages one to three and an empty page four,
keyed by the rolling cursor. -/
def upstream4 : Option String → Except String (List RawRedditPost)
  | none => .ok [sampleRaw "a" "/r/test/a"]
  | some "t3_a" => .ok [sampleRaw "b" "/r/test/b"]
  | some "t3_b" => .ok [sampleRaw "c" "/r/test/c"]
  | some "t3_c" => .ok []
  | some _ => .error "unexpected cursor"

/-- Upstream that raises a transport exception on every call. -/
def failUpstream : Option String → Except String (List RawRedditPost) :=
  fun _ => .error "RequestException"

/-- Raw item whose required title attribute is absent. -/
def rawMissingTitle : RawRedditPost :=
  { sampleRaw "bad" "/r/test/bad" with title := none }

/-- Upstream whose single page holds a good item, an item with a missing
required field, and another good item. -/
def upstreamBadItem : Option String → Except String (List RawRedditPost)
  | none => .ok [sampleRaw "g1" "/r/test/g1", rawMissingTitle, sampleRaw "g2" "/r/test/g2"]
  | some _ => .ok []

/-- Upstream whose second page repeats the canonical URL of the item already
seen on the first page (under a different item id). -/
def upstreamRepeatUrl : Option String → Except String (List RawRedditPost)
  | none => .ok [sampleRaw "a1" "/r/test/same"]
  | some "t3_a1" => .ok [sampleRaw "a2" "/r/test/same"]
  | some _ => .ok []

/-- Normalized post record with a given id, URL and comment list. -/
def mkPostData (i u : String) (cs : List CommentData) : PostData :=
  { id := i
    title := "title " ++ i
    description := ""
    media_url := ""
    post_url := u
    num_comments := 0
    score := 1
    username := "alice"
    created_utc := isoOfEpoch 0
    subreddit := "test"
    comments := cs }

/-- Normalized comment record with a given comment_id and parent post id. -/
def mkCommentData (cid pid : String) : CommentData :=
  { comment_id := cid
    post_id := pid
    username := "bob"
    body := "text"
    score := 0
    created_utc := isoOfEpoch 0 }

/-- Post row as savePostUnit inserts it for mkPostData. -/
def mkPostRow (i u : String) : Post :=
  { id := i
    title := "title " ++ i
    description := ""
    media_url := ""
    post_url := u
    num_comments := 0
    score := 1
    username := "alice"
    created_utc := isoOfEpoch 0
    subreddit := "test"
    is_multiple_subreddits := false }

/-- Store already holding one post with id x and URL urlX. -/
def dbWithX : Database :=
  { posts := [mkPostRow "x" "https://www.reddit.com/r/test/x"], comments := [] }

/-- Fresh post a. -/
def pdA : PostData := mkPostData "a" "https://www.reddit.com/r/test/a" []

/-- Post whose id collides with the stored post x but whose URL is new: its
transaction raises an IntegrityError at commit. -/
def pdDupId : PostData := mkPostData "x" "https://www.reddit.com/r/test/x2" []

/-- Fresh post c, after the failing one in the batch. -/
def pdC : PostData := mkPostData "c" "https://www.reddit.com/r/test/c" []

/-- Post whose URL is already stored and which carries a comment whose
comment_id is absent from the store. -/
def pdDupUrl : PostData :=
  mkPostData "y" "https://www.reddit.com/r/test/x" [mkCommentData "fresh1" "y"]

/-- Raw item whose author is deleted. -/
def rawNoAuthor : RawRedditPost :=
  { sampleRaw "na" "/r/test/na" with author := none }

/-- Raw comment node whose author is deleted. -/
def rawCommentNoAuthor : RawRedditComment :=
  { isCommentNode := true
    id := "cna"
    author := none
    body := "b"
    score := 0
    created_utc := 0 }

/-- Record extract_post_data produces for rawNoAuthor. -/
def extractedNoAuthor : PostData :=
  { id := "na"
    title := "title na"
    description := ""
    media_url := "https://img.example/na"
    post_url := "https://www.reddit.com/r/test/na"
    num_comments := 0
    score := 1
    username := "N/A"
    created_utc := isoOfEpoch 0
    subreddit := "test"
    comments := [] }

/-! Unfolding equations, stated once so proofs can rewrite a single step. -/

/-- One step of save_posts_with_duplicates on a nonempty batch. -/
lemma save_cons (db : Database) (pd : PostData) (rest : List PostData) :
    save_posts_with_duplicates db (pd :: rest) =
      match savePostUnit db pd with
      | some db' => save_posts_with_duplicates db' rest
      | none => db := rfl

/-- One step of allUnitsSucceed on a nonempty batch. -/
lemma allUnitsSucceed_cons (db : Database) (pd : PostData) (rest : List PostData) :
    allUnitsSucceed db (pd :: rest) =
      match savePostUnit db pd with
      | some db' => allUnitsSucceed db' rest
      | none => false := rfl

/-- One step of the page-walk loop with remaining fuel. -/
lemma fetch_posts_loop_succ (up : Option String → Except String (List RawRedditPost))
    (ct : String → List RawRedditComment) (s pt : String) (q : Option String)
    (fuel : Nat) (st : WalkState) :
    fetch_posts_loop up ct s pt q (fuel + 1) st =
      match fetchListing up pt q st.after with
      | .inputError _ => st
      | .apiError _ => { st with fetchCalls := st.fetchCalls + 1 }
      | .page [] => { st with fetchCalls := st.fetchCalls + 1 }
      | .page (p :: ps) =>
        match buildBatch s ct (p :: ps) st.seen_urls with
        | .error _ => { st with fetchCalls := st.fetchCalls + 1 }
        | .ok (batch, seen') =>
          fetch_posts_loop up ct s pt q fuel
            { posts := st.posts ++ batch
              seen_urls := seen'
              after := some (lastFullname p ps)
              fetchCalls := st.fetchCalls + 1 } := rfl

/-- A committed row survives any further post transaction: savePostUnit only
appends rows. -/
lemma savePostUnit_posts_mono {db db' : Database} {pd : PostData}
    (h : savePostUnit db pd = some db') {r : Post} (hr : r ∈ db.posts) :
    r ∈ db'.posts := by
  unfold savePostUnit at h
  split_ifs at h with h1 h2
  · cases h
    exact hr
  · cases h
    exact List.mem_append_left _ hr

/-- A committed row survives the rest of the batch. -/
lemma save_posts_mono : ∀ (ps : List PostData) (db : Database) (r : Post),
    r ∈ db.posts → r ∈ (save_posts_with_duplicates db ps).posts := by
  intro ps
  induction ps with
  | nil =>
    intro db r hr
    exact hr
  | cons pd rest ih =>
    intro db r hr
    rw [save_cons]
    cases h : savePostUnit db pd with
    | none => exact hr
    | some db' => exact ih db' r (savePostUnit_posts_mono h hr)

/-- A stored URL stays stored across the rest of the batch. -/
lemma save_url_mono (ps : List PostData) (db : Database) (u : String)
    (hu : u ∈ db.posts.map (fun r => r.post_url)) :
    u ∈ (save_posts_with_duplicates db ps).posts.map (fun r => r.post_url) := by
  obtain ⟨r, hr, hru⟩ := List.mem_map.mp hu
  exact List.mem_map.mpr ⟨r, save_posts_mono ps db r hr, hru⟩

/-- Replaying an identical batch changes nothing: every post of the batch is
either already stored by URL (skipped), freshly inserted (hence stored by URL
at replay time), or failing on a stored id (failing identically at replay). -/
lemma save_idem : ∀ (ps : List PostData) (db : Database),
    save_posts_with_duplicates (save_posts_with_duplicates db ps) ps =
      save_posts_with_duplicates db ps := by
  intro ps
  induction ps with
  | nil =>
    intro db
    rfl
  | cons pd rest ih =>
    intro db
    by_cases h1 : pd.post_url ∈ db.posts.map (fun r => r.post_url)
    · have hunit : savePostUnit db pd = some db := by
        unfold savePostUnit
        rw [if_pos h1]
      rw [save_cons db pd rest, hunit]
      have h1' : pd.post_url ∈
          (save_posts_with_duplicates db rest).posts.map (fun r => r.post_url) :=
        save_url_mono rest db _ h1
      have hunit' : savePostUnit (save_posts_with_duplicates db rest) pd =
          some (save_posts_with_duplicates db rest) := by
        unfold savePostUnit
        rw [if_pos h1']
      rw [save_cons, hunit']
      exact ih db
    · by_cases h2 : pd.id ∈ db.posts.map (fun r => r.id)
      · have hunit : savePostUnit db pd = none := by
          unfold savePostUnit
          rw [if_neg h1, if_pos h2]
        have e1 : save_posts_with_duplicates db (pd :: rest) = db := by
          rw [save_cons, hunit]
        rw [e1]
        exact e1
      · cases h : savePostUnit db pd with
        | none =>
          unfold savePostUnit at h
          rw [if_neg h1, if_neg h2] at h
          exact absurd h (by simp)
        | some dbIns =>
          have hurl : pd.post_url ∈ dbIns.posts.map (fun r => r.post_url) := by
            unfold savePostUnit at h
            rw [if_neg h1, if_neg h2] at h
            cases h
            exact List.mem_map.mpr
              ⟨_, List.mem_append_right _ (List.mem_singleton_self _), rfl⟩
          rw [save_cons db pd rest, h]
          have h1' := save_url_mono rest dbIns _ hurl
          have hunit' : savePostUnit (save_posts_with_duplicates dbIns rest) pd =
              some (save_posts_with_duplicates dbIns rest) := by
            unfold savePostUnit
            rw [if_pos h1']
          rw [save_cons, hunit']
          exact ih dbIns

/-- The comment loop never stages a comment_id that is already committed or
already staged, so the comment table keeps distinct comment_ids. -/
lemma stageComments_nodup (pid : String) (committed : List Comment) :
    ∀ (cs : List CommentData) (staged : List Comment),
      ((committed ++ staged).map (fun r => r.comment_id)).Nodup →
      ((committed ++ stageComments pid committed cs staged).map
        (fun r => r.comment_id)).Nodup := by
  intro cs
  induction cs with
  | nil =>
    intro staged h
    exact h
  | cons c cs ih =>
    intro staged h
    rw [stageComments]
    by_cases hc : c.comment_id ∈ (committed ++ staged).map (fun r => r.comment_id)
    · rw [if_pos hc]
      exact ih staged h
    · rw [if_neg hc]
      apply ih
      rw [← List.append_assoc, List.map_append, List.nodup_append]
      refine ⟨h, by simp, ?_⟩
      intro a ha hb
      simp only [List.map_cons, List.map_nil, List.mem_singleton] at hb
      rw [hb] at ha
      exact hc ha

/-- One post transaction preserves the uniqueness invariant of the schema. -/
lemma savePostUnit_unique {db db' : Database} {pd : PostData}
    (h : savePostUnit db pd = some db') (hu : dbUnique db) : dbUnique db' := by
  obtain ⟨hid, hurl, hcid⟩ := hu
  unfold savePostUnit at h
  split_ifs at h with h1 h2
  · cases h
    exact ⟨hid, hurl, hcid⟩
  · cases h
    refine ⟨?_, ?_, ?_⟩
    · rw [List.map_append, List.nodup_append]
      refine ⟨hid, by simp, ?_⟩
      intro a ha hb
      simp only [List.map_cons, List.map_nil, List.mem_singleton] at hb
      rw [hb] at ha
      exact h2 ha
    · rw [List.map_append, List.nodup_append]
      refine ⟨hurl, by simp, ?_⟩
      intro a ha hb
      simp only [List.map_cons, List.map_nil, List.mem_singleton] at hb
      rw [hb] at ha
      exact h1 ha
    · exact stageComments_nodup pd.id db.comments pd.comments [] (by simpa using hcid)

/-- The walk issues at most one fetch call per unit of fuel. -/
lemma fetch_posts_loop_calls_le (up : Option String → Except String (List RawRedditPost))
    (ct : String → List RawRedditComment) (s pt : String) (q : Option String) :
    ∀ (fuel : Nat) (st : WalkState),
      (fetch_posts_loop up ct s pt q fuel st).fetchCalls ≤ st.fetchCalls + fuel := by
  intro fuel
  induction fuel with
  | zero =>
    intro st
    simp [fetch_posts_loop]
  | succ n ih =>
    intro st
    rw [fetch_posts_loop_succ]
    cases hfl : fetchListing up pt q st.after with
    | inputError m => dsimp only; omega
    | apiError m => dsimp only; omega
    | page items =>
      cases items with
      | nil => dsimp only; omega
      | cons p ps =>
        dsimp only
        cases hbb : buildBatch s ct (p :: ps) st.seen_urls with
        | error e => dsimp only; omega
        | ok pr =>
          obtain ⟨batch, seen'⟩ := pr
          dsimp only
          have hrec := ih { posts := st.posts ++ batch
                            seen_urls := seen'
                            after := some (lastFullname p ps)
                            fetchCalls := st.fetchCalls + 1 }
          dsimp only at hrec
          omega

/-- One step of buildBatch on a nonempty page. -/
lemma buildBatch_cons (sub : String) (ct : String → List RawRedditComment)
    (post : RawRedditPost) (rest : List RawRedditPost) (seen : List String) :
    buildBatch sub ct (post :: rest) seen =
      match extract_post_data post sub with
      | .error e => .error e
      | .ok pd =>
        if pd.post_url ∈ seen then
          buildBatch sub ct rest seen
        else
          match buildBatch sub ct rest (pd.post_url :: seen) with
          | .error e => .error e
          | .ok (batch, seen') =>
            .ok ({ pd with comments := fetch_comments post (ct post.id) 100 } :: batch,
                 seen') := rfl

/-- A successful page batch: the seen set only grows, every batch member has
a URL that was fresh before the page and is recorded afterwards, and the
batch holds no two items with the same URL. -/
lemma buildBatch_ok_spec (sub : String) (ct : String → List RawRedditComment) :
    ∀ (items : List RawRedditPost) (seen : List String) (batch : List PostData)
      (seen' : List String),
      buildBatch sub ct items seen = .ok (batch, seen') →
      (∀ u, u ∈ seen → u ∈ seen') ∧
      (∀ p, p ∈ batch → p.post_url ∈ seen' ∧ p.post_url ∉ seen) ∧
      (batch.map (fun p => p.post_url)).Nodup := by
  intro items
  induction items with
  | nil =>
    intro seen batch seen' h
    simp only [buildBatch, Except.ok.injEq, Prod.mk.injEq] at h
    obtain ⟨hb, hs⟩ := h
    subst hb
    subst hs
    exact ⟨fun u hu => hu, by simp, by simp⟩
  | cons post rest ih =>
    intro seen batch seen' h
    rw [buildBatch_cons] at h
    cases hex : extract_post_data post sub with
    | error e =>
      rw [hex] at h
      exact absurd h (by simp)
    | ok pd =>
      rw [hex] at h
      dsimp only at h
      by_cases hseen : pd.post_url ∈ seen
      · rw [if_pos hseen] at h
        exact ih seen batch seen' h
      · rw [if_neg hseen] at h
        cases hrec : buildBatch sub ct rest (pd.post_url :: seen) with
        | error e =>
          rw [hrec] at h
          exact absurd h (by simp)
        | ok pr =>
          obtain ⟨batch', seen₂⟩ := pr
          rw [hrec] at h
          simp only [Except.ok.injEq, Prod.mk.injEq] at h
          obtain ⟨hb, hs⟩ := h
          subst hb
          subst hs
          obtain ⟨ih1, ih2, ih3⟩ := ih (pd.post_url :: seen) batch' _ hrec
          refine ⟨?_, ?_, ?_⟩
          · intro u hu
            exact ih1 u (List.mem_cons_of_mem _ hu)
          · intro p hp
            rcases List.mem_cons.mp hp with hpeq | hp'
            · subst hpeq
              exact ⟨ih1 _ (List.mem_cons_self _ _), hseen⟩
            · obtain ⟨hin, hnin⟩ := ih2 p hp'
              exact ⟨hin, fun hmem => hnin (List.mem_cons_of_mem _ hmem)⟩
          · rw [List.map_cons, List.nodup_cons]
            refine ⟨?_, ih3⟩
            intro hmem
            obtain ⟨p, hp, hpu⟩ := List.mem_map.mp hmem
            obtain ⟨hin, hnin⟩ := ih2 p hp
            rw [hpu] at hnin
            exact hnin (List.mem_cons_self _ _)

/-- Invariant of the page walk: every accumulated post has its URL in the
walk-scoped seen set, and no two accumulated posts share a URL. -/
lemma fetch_posts_loop_inv (up : Option String → Except String (List RawRedditPost))
    (ct : String → List RawRedditComment) (s pt : String) (q : Option String) :
    ∀ (fuel : Nat) (st : WalkState),
      (∀ p ∈ st.posts, p.post_url ∈ st.seen_urls) →
      (st.posts.map (fun p => p.post_url)).Nodup →
      (∀ p ∈ (fetch_posts_loop up ct s pt q fuel st).posts,
          p.post_url ∈ (fetch_posts_loop up ct s pt q fuel st).seen_urls) ∧
      ((fetch_posts_loop up ct s pt q fuel st).posts.map (fun p => p.post_url)).Nodup := by
  intro fuel
  induction fuel with
  | zero =>
    intro st h1 h2
    exact ⟨h1, h2⟩
  | succ n ih =>
    intro st h1 h2
    rw [fetch_posts_loop_succ]
    cases hfl : fetchListing up pt q st.after with
    | inputError m => exact ⟨h1, h2⟩
    | apiError m => exact ⟨h1, h2⟩
    | page items =>
      cases items with
      | nil => exact ⟨h1, h2⟩
      | cons p ps =>
        dsimp only
        cases hbb : buildBatch s ct (p :: ps) st.seen_urls with
        | error e => exact ⟨h1, h2⟩
        | ok pr =>
          obtain ⟨batch, seen'⟩ := pr
          dsimp only
          obtain ⟨hb1, hb2, hb3⟩ := buildBatch_ok_spec s ct (p :: ps) st.seen_urls batch seen' hbb
          apply ih
          · intro x hx
            rcases List.mem_append.mp hx with hold | hnew
            · exact hb1 _ (h1 x hold)
            · exact (hb2 x hnew).1
          · rw [List.map_append, List.nodup_append]
            refine ⟨h2, hb3, ?_⟩
            intro u hu hv
            obtain ⟨x, hx, hxu⟩ := List.mem_map.mp hu
            obtain ⟨y, hy, hyu⟩ := List.mem_map.mp hv
            have hxs : u ∈ st.seen_urls := hxu ▸ h1 x hx
            have hys : u ∉ st.seen_urls := hyu ▸ (hb2 y hy).2
            exact hys hxs

/-- A ValueError raised by the listing dispatch is caught by the except and
breaks the loop at once: the state is returned untouched, whatever the
remaining fuel. -/
lemma fetch_posts_loop_input_error (up : Option String → Except String (List RawRedditPost))
    (ct : String → List RawRedditComment) (s pt : String) (q : Option String)
    (fuel : Nat) (st : WalkState) (m : String)
    (h : fetchListing up pt q st.after = .inputError m) :
    fetch_posts_loop up ct s pt q fuel st = st := by
  cases fuel with
  | zero => rfl
  | succ n => rw [fetch_posts_loop_succ, h]

/-- C1 (code_bug). The spec and the claim require up to max_api_retries
retried attempts with exponential backoff before surfacing a page-fetch
failure; the code stores max_api_retries and ships exponential_backoff
(computing base_delay * 2 ^ attempt) but never consults either: on an
upstream that fails every call, fetch_posts issues exactly one listing call,
performs no retry, and returns the empty accumulation normally, for every
value of max_api_retries. -/
theorem c1_no_retry_on_failure :
    (∀ max_api_retries : Nat,
        fetch_posts failUpstream noComments "test" "top" "day" none false 100 (some 10)
            max_api_retries =
          { posts := [], seen_urls := [], after := none, fetchCalls := 1 }) ∧
    exponential_backoff 3 1 = 8 :=
  ⟨fun _ => rfl, rfl⟩

/-- C2 counterexample. Store holding post x; batch of a fresh post a, a post
whose id collides with x (its transaction raises IntegrityError at commit),
and a fresh post c. The claim says processing continues with c after rolling
back the failing transaction; the code aborts the batch, so c is never
stored while the previously committed a remains. -/
theorem c2_counterexample :
    (save_posts_with_duplicates dbWithX [pdA, pdDupId, pdC]).posts.map (fun r => r.id) =
      ["x", "a"] := rfl

/-- C2 amended. Each post is committed as its own transaction and a failing
transaction is rolled back leaving previously committed posts stored, but
processing does not continue: the first exception ends the batch, leaving
every later post unprocessed. -/
theorem c2_first_failure_aborts_batch (db : Database) (ps : List PostData)
    (pd : PostData) (rest : List PostData)
    (hall : allUnitsSucceed db ps = true)
    (hfail : savePostUnit (save_posts_with_duplicates db ps) pd = none) :
    save_posts_with_duplicates db (ps ++ pd :: rest) =
      save_posts_with_duplicates db ps := by
  induction ps generalizing db with
  | nil =>
    have hfail' : savePostUnit db pd = none := hfail
    rw [List.nil_append, save_cons, hfail']
    rfl
  | cons q qs ih =>
    rw [allUnitsSucceed_cons] at hall
    cases h : savePostUnit db q with
    | none =>
      rw [h] at hall
      exact absurd hall (by simp)
    | some db' =>
      rw [h] at hall
      rw [save_cons db q qs, h] at hfail
      rw [List.cons_append, save_cons, h, save_cons db q qs, h]
      exact ih db' hall hfail

/-- C2 witness: with post a committed and the duplicate-id post failing, the
batch result equals the state after a alone; post c is never processed. -/
theorem c2_first_failure_aborts_batch_witness :
    save_posts_with_duplicates dbWithX ([pdA] ++ pdDupId :: [pdC]) =
      save_posts_with_duplicates dbWithX [pdA] :=
  c2_first_failure_aborts_batch dbWithX [pdA] pdDupId [pdC] rfl rfl

/-- C3 counterexample. A single page holding a good item, an item with a
missing required title, and another good item: the claim says only the bad
item is skipped and the two good ones survive, but the extraction exception
aborts the whole page, the partial batch is discarded, and the walk ends
with no posts at all after the one fetch call. -/
theorem c3_counterexample :
    fetch_posts upstreamBadItem noComments "test" "new" "day" none false 100 (some 5) 0 =
      { posts := [], seen_urls := [], after := none, fetchCalls := 1 } := rfl

/-- C3 amended. A missing required field makes extract_post_data raise; the
page walker catches the exception, logs it and breaks: the page whose item
failed is discarded entirely (including its already-extracted good items) and
the walk terminates, returning only what earlier pages accumulated. -/
theorem c3_extraction_error_aborts_page
    (up : Option String → Except String (List RawRedditPost))
    (ct : String → List RawRedditComment) (s pt : String) (q : Option String)
    (fuel : Nat) (st : WalkState) (items : List RawRedditPost) (e : String)
    (hpt : pt = "hot" ∨ pt = "new" ∨ pt = "top" ∨ pt = "rising")
    (hfetch : up st.after = .ok items)
    (herr : buildBatch s ct items st.seen_urls = .error e) :
    fetch_posts_loop up ct s pt q (fuel + 1) st =
      { st with fetchCalls := st.fetchCalls + 1 } := by
  have hlist : fetchListing up pt q st.after = .page items := by
    unfold fetchListing
    rw [if_pos hpt, hfetch]
  cases items with
  | nil =>
    rw [buildBatch] at herr
    exact absurd herr (by simp)
  | cons p ps =>
    rw [fetch_posts_loop_succ, hlist]
    dsimp only
    rw [herr]

/-- C3 witness: the bad-item page aborts the walk after one fetch, dropping
the good items of that page. -/
theorem c3_extraction_error_aborts_page_witness :
    fetch_posts_loop upstreamBadItem noComments "test" "new" none 4
        { posts := [], seen_urls := [], after := none, fetchCalls := 0 } =
      { posts := [], seen_urls := [], after := none, fetchCalls := 1 } :=
  c3_extraction_error_aborts_page upstreamBadItem noComments "test" "new" none 3
    { posts := [], seen_urls := [], after := none, fetchCalls := 0 }
    [sampleRaw "g1" "/r/test/g1", rawMissingTitle, sampleRaw "g2" "/r/test/g2"]
    "AttributeError: missing required field"
    (Or.inr (Or.inl rfl)) rfl rfl

/-- C4 counterexample. Page two repeats the canonical URL of the item seen on
page one (under a new item id); the claim says the walker does not
deduplicate across pages, so both occurrences should be returned, but only
the first survives: the seen set lives for the whole walk. -/
theorem c4_counterexample :
    (fetch_posts upstreamRepeatUrl noComments "test" "new" "day" none false 100 (some 2)
        0).posts.map (fun p => p.id) = ["a1"] := rfl

/-- C4 amended. The URL-seen set is created once per walk, not per page: over
all pages of one walk only the first occurrence of each canonical URL is
kept, so the output of fetch_posts never contains two posts with the same
URL, whether the duplicate occurred within one page or across pages. -/
theorem c4_walk_scoped_dedup
    (up : Option String → Except String (List RawRedditPost))
    (ct : String → List RawRedditComment) (s pt tf : String) (q : Option String)
    (sb : Bool) (lim : Nat) (pl : Option Nat) (r : Nat) :
    ((fetch_posts up ct s pt tf q sb lim pl r).posts.map (fun p => p.post_url)).Nodup := by
  unfold fetch_posts
  exact (fetch_posts_loop_inv up ct s pt q (pageBound pl)
    { posts := [], seen_urls := [], after := none, fetchCalls := 0 }
    (by simp) (by simp)).2

/-- C5 (confirmed). Running the full pipeline twice against the same upstream
responses leaves the store exactly as after one run: every post of the replay
is already present by URL (or fails identically), so no duplicate Post or
Comment row is ever inserted and the row counts agree. -/
theorem c5_pipeline_idempotent
    (up : Option String → Except String (List RawRedditPost))
    (ct : String → List RawRedditComment) (s pt tf : String) (q : Option String)
    (sb : Bool) (lim : Nat) (pl : Option Nat) (r : Nat) (db : Database) :
    runPipeline up ct s pt tf q sb lim pl r (runPipeline up ct s pt tf q sb lim pl r db) =
      runPipeline up ct s pt tf q sb lim pl r db := by
  unfold runPipeline
  exact save_idem _ db

/-- C6 (confirmed). The walk issues at most pageBound pagination_limit fetch
calls; an absent pagination_limit means exactly one page is fetched; and on
an upstream with items on pages one to three and an empty page four, a walk
with pagination_limit ten stops normally after exactly four fetch calls. -/
theorem c6_pagination_bound :
    (∀ (up : Option String → Except String (List RawRedditPost))
        (ct : String → List RawRedditComment) (s pt tf : String) (q : Option String)
        (sb : Bool) (lim : Nat) (pl : Option Nat) (r : Nat),
        (fetch_posts up ct s pt tf q sb lim pl r).fetchCalls ≤ pageBound pl) ∧
    (∀ (up : Option String → Except String (List RawRedditPost))
        (ct : String → List RawRedditComment) (s tf : String) (q : Option String)
        (sb : Bool) (lim : Nat) (r : Nat),
        (fetch_posts up ct s "top" tf q sb lim none r).fetchCalls = 1) ∧
    (fetch_posts upstream4 noComments "test" "new" "day" none false 100 (some 10)
        3).fetchCalls = 4 := by
  refine ⟨?_, ?_, by rfl⟩
  · intro up ct s pt tf q sb lim pl r
    unfold fetch_posts
    have h := fetch_posts_loop_calls_le up ct s pt q (pageBound pl)
      { posts := [], seen_urls := [], after := none, fetchCalls := 0 }
    simpa using h
  · intro up ct s tf q sb lim r
    show (fetch_posts_loop up ct s "top" q (0 + 1)
        { posts := [], seen_urls := [], after := none, fetchCalls := 0 }).fetchCalls = 1
    rw [fetch_posts_loop_succ]
    have hfl : fetchListing up "top" q (none : Option String) =
        match up none with
        | .ok items => ListingResult.page items
        | .error e => ListingResult.apiError e := by
      unfold fetchListing
      rw [if_pos (by decide)]
    dsimp only
    rw [hfl]
    cases h : up none with
    | error e => rfl
    | ok items =>
      cases items with
      | nil => rfl
      | cons p ps =>
        dsimp only
        cases hbb : buildBatch s ct (p :: ps) [] with
        | error e => rfl
        | ok pr =>
          obtain ⟨batch, seen'⟩ := pr
          rfl

/-- C7 counterexample. Store holding post x; a batch with a post whose id
collides with x under a fresh URL, followed by a fresh post c. The claim says
the id-duplicate is treated as already present and skipped, so c would be
stored next; instead the duplicate id makes the transaction raise and the
batch aborts with only x in the store. -/
theorem c7_counterexample :
    (save_posts_with_duplicates dbWithX [pdDupId, pdC]).posts.map (fun r => r.id) =
      ["x"] := rfl

/-- C7 amended. The schema-level uniqueness holds: saving never produces two
post rows sharing an id or a post_url nor two comment rows sharing a
comment_id, and a post whose URL is stored is skipped without overwriting.
But a second observation carrying an already-stored id under a new URL is not
skipped: its transaction fails (IntegrityError), aborting the rest of the
batch. -/
theorem c7_uniqueness :
    (∀ (db : Database) (ps : List PostData),
        dbUnique db → dbUnique (save_posts_with_duplicates db ps)) ∧
    (∀ (db : Database) (pd : PostData),
        pd.post_url ∉ db.posts.map (fun r => r.post_url) →
        pd.id ∈ db.posts.map (fun r => r.id) →
        savePostUnit db pd = none) := by
  constructor
  · intro db ps
    induction ps generalizing db with
    | nil =>
      intro hu
      exact hu
    | cons pd rest ih =>
      intro hu
      rw [save_cons]
      cases h : savePostUnit db pd with
      | none => exact hu
      | some db' => exact ih db' (savePostUnit_unique h hu)
  · intro db pd h1 h2
    unfold savePostUnit
    rw [if_neg h1, if_pos h2]

/-- C7 witness: saving a fresh post into the store holding x keeps all three
uniqueness invariants; and the concrete id-duplicate transaction raises. -/
theorem c7_uniqueness_witness :
    dbUnique (save_posts_with_duplicates dbWithX [pdA]) ∧
    savePostUnit dbWithX pdDupId = none :=
  ⟨c7_uniqueness.1 dbWithX [pdA] ⟨by decide, by decide, by decide⟩,
   c7_uniqueness.2 dbWithX pdDupId (by decide) (by decide)⟩

/-- C8 (confirmed). A raw post or comment whose author field is null is
extracted with the sentinel username, the string N/A, which is a plain
non-null string and is not empty; every real comment node among the first
max_comments of the tree reaches the output of fetch_comments through the
same mapping. -/
theorem c8_unknown_author_sentinel :
    (∀ (post : RawRedditPost) (sub : String) (pd : PostData),
        post.author = none → extract_post_data post sub = .ok pd →
        pd.username = "N/A") ∧
    (∀ (post : RawRedditPost) (c : RawRedditComment),
        c.author = none → (commentRecord post c).username = "N/A") ∧
    (∀ (post : RawRedditPost) (tree : List RawRedditComment) (mc : Nat)
        (c : RawRedditComment),
        c ∈ tree.take mc → c.isCommentNode = true →
        commentRecord post c ∈ fetch_comments post tree mc) ∧
    ("N/A" : String) ≠ "" := by
  refine ⟨?_, ?_, ?_, by decide⟩
  · intro post sub pd ha hex
    unfold extract_post_data at hex
    cases ht : post.title with
    | none =>
      rw [ht] at hex
      exact absurd hex (by simp)
    | some t =>
      cases hp : post.permalink with
      | none =>
        rw [ht, hp] at hex
        exact absurd hex (by simp)
      | some l =>
        cases hn : post.num_comments with
        | none =>
          rw [ht, hp, hn] at hex
          exact absurd hex (by simp)
        | some n =>
          cases hs : post.score with
          | none =>
            rw [ht, hp, hn, hs] at hex
            exact absurd hex (by simp)
          | some sc =>
            rw [ht, hp, hn, hs] at hex
            simp only [Except.ok.injEq] at hex
            subst hex
            simp [authorName, ha]
  · intro post c ha
    simp [commentRecord, authorName, ha]
  · intro post tree mc c hmem hc
    unfold fetch_comments
    exact List.mem_map_of_mem _ (List.mem_filter.mpr ⟨hmem, hc⟩)

/-- C8 witness: the concrete deleted-author post and comment both map to the
N/A sentinel, and the comment node reaches the fetch_comments output. -/
theorem c8_unknown_author_sentinel_witness :
    extractedNoAuthor.username = "N/A" ∧
    (commentRecord rawNoAuthor rawCommentNoAuthor).username = "N/A" ∧
    commentRecord rawNoAuthor rawCommentNoAuthor ∈
      fetch_comments rawNoAuthor [rawCommentNoAuthor] 100 :=
  ⟨c8_unknown_author_sentinel.1 rawNoAuthor "test" extractedNoAuthor rfl rfl,
   c8_unknown_author_sentinel.2.1 rawNoAuthor rawCommentNoAuthor rfl,
   c8_unknown_author_sentinel.2.2.1 rawNoAuthor [rawCommentNoAuthor] 100
     rawCommentNoAuthor (by simp) rfl⟩

/-- C9 counterexample. Requesting the relevance listing without a search
query over an upstream that does have items: the claim says the input error
is signaled to the invoker and the fetch does not silently return an empty
result, but fetch_posts returns the empty accumulation normally (the
ValueError is caught by the own loop of the walker), with zero fetch calls. -/
theorem c9_counterexample :
    fetch_posts upstream4 noComments "test" "relevance" "day" none false 100 (some 5) 3 =
      { posts := [], seen_urls := [], after := none, fetchCalls := 0 } := rfl

/-- C9 amended. Relevance without a search query, and any unknown listing
type, raise ValueError before any listing API call is issued; but the raise
happens inside the try of the page loop, whose except catches it, logs and
breaks: the caller receives a silently empty result instead of an error. -/
theorem c9_input_error_swallowed
    (up : Option String → Except String (List RawRedditPost))
    (ct : String → List RawRedditComment) (s pt tf : String) (q : Option String)
    (sb : Bool) (lim : Nat) (pl : Option Nat) (r : Nat)
    (h : (pt = "relevance" ∧ falsyQuery q = true) ∨
         (pt ≠ "hot" ∧ pt ≠ "new" ∧ pt ≠ "top" ∧ pt ≠ "rising" ∧ pt ≠ "relevance")) :
    fetch_posts up ct s pt tf q sb lim pl r =
      { posts := [], seen_urls := [], after := none, fetchCalls := 0 } := by
  unfold fetch_posts
  rcases h with ⟨hpt, hq⟩ | ⟨h1, h2, h3, h4, h5⟩
  · subst hpt
    refine fetch_posts_loop_input_error up ct s "relevance" q (pageBound pl) _
      "Search query is required for relevance-based posts." ?_
    unfold fetchListing
    rw [if_neg (by decide), if_pos rfl, if_pos hq]
  · refine fetch_posts_loop_input_error up ct s pt q (pageBound pl) _
      "Invalid post_type" ?_
    unfold fetchListing
    rw [if_neg (by tauto), if_neg h5]

/-- C9 witness: the relevance-without-query walk and an unknown listing type
both return the empty accumulation with zero listing calls. -/
theorem c9_input_error_swallowed_witness :
    fetch_posts upstream4 noComments "test" "relevance" "day" none false 100 (some 7) 3 =
      { posts := [], seen_urls := [], after := none, fetchCalls := 0 } ∧
    fetch_posts upstream4 noComments "test" "weird" "day" (some "x") false 100 (some 7) 3 =
      { posts := [], seen_urls := [], after := none, fetchCalls := 0 } :=
  ⟨c9_input_error_swallowed upstream4 noComments "test" "relevance" "day" none false 100
      (some 7) 3 (Or.inl ⟨rfl, rfl⟩),
   c9_input_error_swallowed upstream4 noComments "test" "weird" "day" (some "x") false 100
      (some 7) 3 (Or.inr ⟨by decide, by decide, by decide, by decide, by decide⟩)⟩

/-- C10 (confirmed). A post whose post_url already exists in the store is
skipped as a whole unit: the continue fires before any comment handling, so
none of its comments is inserted, even those with a comment_id absent from
the store, and the batch result equals the result without that post. -/
theorem c10_duplicate_post_skips_comments (db : Database) (pd : PostData)
    (rest : List PostData)
    (h : pd.post_url ∈ db.posts.map (fun r => r.post_url)) :
    save_posts_with_duplicates db (pd :: rest) = save_posts_with_duplicates db rest := by
  rw [save_cons]
  have hunit : savePostUnit db pd = some db := by
    unfold savePostUnit
    rw [if_pos h]
  rw [hunit]

/-- C10 witness: the already-stored post carrying a fresh-id comment
contributes nothing to the store. -/
theorem c10_duplicate_post_skips_comments_witness :
    save_posts_with_duplicates dbWithX [pdDupUrl] =
      save_posts_with_duplicates dbWithX [] :=
  c10_duplicate_post_skips_comments dbWithX pdDupUrl [] (by decide)

end RedditScraper
